import Mathlib

/-!
Verification development for the node-sass binding layer (src/binding.cpp).

The binding bridges an external stylesheet compiler to Node.js callers:
five entry points (oldRender, render, renderSync, renderFile,
renderFileSync) build a per-request context, hand it either to a worker
pool (async) or to the compiler inline (sync), and a completion handler
(MakeOldCallback / MakeCallback / MakeFileCallback) dispatches exactly one
callback and releases the request's buffers.

The embedding below follows src/binding.cpp line by line.  Heap buffers
allocated by the binding (with new) and the caller-transient argument
buffers (the v8 String::AsciiValue internals) are modelled by explicit
identifiers; a pointer field holds the identifier of the buffer it points
to together with that buffer's contents at the time of assignment.  The
external compile engine (sass_compile / sass_compile_file, libsass) is a
parameter: an arbitrary function from the built context to a compile
outcome (error_status, output_string, error_message, and for the file
variant source_map_string).
-/

namespace NodeSass

/-- Identifiers for the memory buffers a request can touch.
sourceBuf, includeBuf, imageBuf, inputPathBuf, mapBuf are buffers the
binding allocates with new at request-creation time; callerSource,
callerInclude, callerMap are the caller-transient AsciiValue buffers that
back the v8 string arguments and die when the entry point returns. -/
inductive BufId
  | sourceBuf
  | includeBuf
  | imageBuf
  | inputPathBuf
  | mapBuf
  | callerSource
  | callerInclude
  | callerMap
  deriving DecidableEq

/-- A buffer is caller-transient when it is owned by the v8 argument
conversion (String::AsciiValue) rather than by the request. -/
def BufId.callerTransient : BufId → Bool
  | .callerSource => true
  | .callerInclude => true
  | .callerMap => true
  | _ => false

/-- A char pointer: which buffer it points to and that buffer's contents
at assignment time. -/
structure Ptr where
  buf : BufId
  content : String
  deriving DecidableEq

/-- The option block shared by both context kinds (struct sass_options). -/
structure SassOptions where
  include_paths : Option Ptr
  image_path : Option Ptr
  output_style : Int
  source_comments : Int
  deriving DecidableEq

/-- The inline-source compile context (struct sass_context), restricted to
the fields binding.cpp writes or reads.  The engine-written result fields
live in CompileOutcome. -/
structure SassContext where
  source_string : Option Ptr
  options : SassOptions
  deriving DecidableEq

/-- The file compile context (struct sass_file_context), restricted to the
fields binding.cpp writes or reads. -/
structure SassFileContext where
  input_path : Option Ptr
  source_map_file : Option Ptr
  options : SassOptions
  deriving DecidableEq

/-- Result fields the engine writes into a sass_context:
error_status, output_string, error_message. -/
structure CompileOutcome where
  error_status : Int
  output_string : String
  error_message : String
  deriving DecidableEq

/-- Result fields the engine writes into a sass_file_context:
error_status, output_string, error_message, source_map_string. -/
structure FileCompileOutcome where
  error_status : Int
  output_string : String
  error_message : String
  source_map_string : String
  deriving DecidableEq

/-- A v8 value as passed to a JS callback. -/
inductive JSValue
  | null
  | undefined
  | str (s : String)
  deriving DecidableEq

/-- One callback invocation: which callback slot was called and with
which argument list. -/
inductive CallEvent
  | successCall (args : List JSValue)
  | errorCall (args : List JSValue)
  | legacyCall (args : List JSValue)
  deriving DecidableEq

/-- What a completion handler does: the callback invocations it performs
(in order), whether a callback exception was escalated through
node::FatalException, which char buffers its delete statements free, and
whether the context wrapper was handed to sass_free_context_wrapper. -/
structure DispatchOutcome where
  calls : List CallEvent
  fatalEscalated : Bool
  freed : List BufId
  wrapperFreed : Bool
  deriving DecidableEq

/-- v8 Int32Value: the argument number truncated to a signed 32-bit
integer. -/
def toInt32 (n : Int) : Int :=
  (n + 2 ^ 31) % 2 ^ 32 - 2 ^ 31

/-- Modelled from the spec: the numeric encoding of sourceCommentMode is
part of the compatibility contract (None = 0, Inline = 1, Map = 2); the
constant SASS_SOURCE_COMMENTS_MAP itself is declared in the engine header
sass_interface.h, which is not under src/. -/
def SASS_SOURCE_COMMENTS_MAP : Int := 2

/-- Modelled from the spec: sass_new_context (engine-side constructor, not
under src/) returns a blank context whose pointer fields are null and
whose numeric fields are zero. -/
def zeroContext : SassContext :=
  { source_string := none
    options :=
      { include_paths := none
        image_path := none
        output_style := 0
        source_comments := 0 } }

/-- Modelled from the spec: sass_new_file_context (engine-side
constructor, not under src/) returns a blank context whose pointer fields
are null and whose numeric fields are zero. -/
def zeroFileContext : SassFileContext :=
  { input_path := none
    source_map_file := none
    options :=
      { include_paths := none
        image_path := none
        output_style := 0
        source_comments := 0 } }

/-- The buffers reachable from an inline-source context's pointer
fields. -/
def ctxBufRefs (c : SassContext) : List BufId :=
  (c.source_string.map Ptr.buf).toList ++
  (c.options.include_paths.map Ptr.buf).toList ++
  (c.options.image_path.map Ptr.buf).toList

/-- The buffers reachable from a file context's pointer fields. -/
def fileCtxBufRefs (c : SassFileContext) : List BufId :=
  (c.input_path.map Ptr.buf).toList ++
  (c.source_map_file.map Ptr.buf).toList ++
  (c.options.include_paths.map Ptr.buf).toList ++
  (c.options.image_path.map Ptr.buf).toList

/-- Request construction performed by Render (binding.cpp lines 107-135),
step by step.  source is args[0], includePaths is args[3], styleArg is
args[4], commentsArg is args[5].  Returns the built context and the list
of heap buffers allocated, in allocation order.
Line 117-119: source = new char[...]; strcpy(source, *astr);
ctx->source_string = source (an owned copy of the source text).
Line 120: ctx->options.include_paths = new char[strlen(*bstr)+1] (an
uninitialised heap buffer).
Line 121: ctx->options.include_paths = *bstr — the pointer is overwritten
with the caller-transient AsciiValue buffer; the allocation of line 120 is
orphaned.
Line 123: ctx->options.image_path = new char[0].
Lines 124-125: output_style and source_comments from Int32Value. -/
def renderBuild (source includePaths : String) (styleArg commentsArg : Int) :
    SassContext × List BufId :=
  let c1 := { zeroContext with source_string := some ⟨.sourceBuf, source⟩ }
  let c2 := { c1 with options := { c1.options with include_paths := some ⟨.includeBuf, ""⟩ } }
  let c3 := { c2 with options := { c2.options with include_paths := some ⟨.callerInclude, includePaths⟩ } }
  let c4 := { c3 with options := { c3.options with image_path := some ⟨.imageBuf, ""⟩ } }
  let c5 := { c4 with options := { c4.options with output_style := toInt32 styleArg } }
  let c6 := { c5 with options := { c5.options with source_comments := toInt32 commentsArg } }
  (c6, [.sourceBuf, .includeBuf, .imageBuf])

/-- Request construction performed by RenderSync (binding.cpp lines
137-151).  source is args[0], includePaths is args[1], styleArg is
args[2], commentsArg is args[3].  Same assignment pattern as Render
(lines 144-151), including the line 147/148 pointer overwrite that
orphans the include-paths allocation; image_path is allocated between
output_style and source_comments. -/
def renderSyncBuild (source includePaths : String) (styleArg commentsArg : Int) :
    SassContext × List BufId :=
  let c1 := { zeroContext with source_string := some ⟨.sourceBuf, source⟩ }
  let c2 := { c1 with options := { c1.options with include_paths := some ⟨.includeBuf, ""⟩ } }
  let c3 := { c2 with options := { c2.options with include_paths := some ⟨.callerInclude, includePaths⟩ } }
  let c4 := { c3 with options := { c3.options with output_style := toInt32 styleArg } }
  let c5 := { c4 with options := { c4.options with image_path := some ⟨.imageBuf, ""⟩ } }
  let c6 := { c5 with options := { c5.options with source_comments := toInt32 commentsArg } }
  (c6, [.sourceBuf, .includeBuf, .imageBuf])

/-- Request construction performed by OldRender (binding.cpp lines
49-75).  source is args[0], includePaths is args[2], styleArg is args[3],
commentsArg is args[4].  Lines 58-66: owned copy of the source, the
include-paths allocation (line 61) overwritten with the caller-transient
pointer (line 63), image_path = new char[0] (line 62). -/
def oldRenderBuild (source includePaths : String) (styleArg commentsArg : Int) :
    SassContext × List BufId :=
  let c1 := { zeroContext with source_string := some ⟨.sourceBuf, source⟩ }
  let c2 := { c1 with options := { c1.options with include_paths := some ⟨.includeBuf, ""⟩ } }
  let c3 := { c2 with options := { c2.options with image_path := some ⟨.imageBuf, ""⟩ } }
  let c4 := { c3 with options := { c3.options with include_paths := some ⟨.callerInclude, includePaths⟩ } }
  let c5 := { c4 with options := { c4.options with output_style := toInt32 styleArg } }
  let c6 := { c5 with options := { c5.options with source_comments := toInt32 commentsArg } }
  (c6, [.sourceBuf, .includeBuf, .imageBuf])

/-- Request construction performed by RenderFile (binding.cpp lines
224-257).  path is args[0], includePaths is args[3], styleArg is args[4],
commentsArg is args[5], sourceMapPath is args[6].
Lines 235-237: owned copy of the path into input_path.
Lines 238-239: the include-paths allocation overwritten with the
caller-transient pointer.  Lines 241-243: output_style, image_path,
source_comments.  Lines 244-247: only when source_comments equals
SASS_SOURCE_COMMENTS_MAP, source_map_file is set to an owned copy of
sourceMapPath (a fresh allocation). -/
def renderFileBuild (path includePaths : String) (styleArg commentsArg : Int)
    (sourceMapPath : String) : SassFileContext × List BufId :=
  let c1 := { zeroFileContext with input_path := some ⟨.inputPathBuf, path⟩ }
  let c2 := { c1 with options := { c1.options with include_paths := some ⟨.includeBuf, ""⟩ } }
  let c3 := { c2 with options := { c2.options with include_paths := some ⟨.callerInclude, includePaths⟩ } }
  let c4 := { c3 with options := { c3.options with output_style := toInt32 styleArg } }
  let c5 := { c4 with options := { c4.options with image_path := some ⟨.imageBuf, ""⟩ } }
  let c6 := { c5 with options := { c5.options with source_comments := toInt32 commentsArg } }
  (if c6.options.source_comments = SASS_SOURCE_COMMENTS_MAP then
    { c6 with source_map_file := some ⟨.mapBuf, sourceMapPath⟩ }
   else c6,
   if c6.options.source_comments = SASS_SOURCE_COMMENTS_MAP then
    [.inputPathBuf, .includeBuf, .imageBuf, .mapBuf]
   else [.inputPathBuf, .includeBuf, .imageBuf])

/-- Request construction performed by RenderFileSync (binding.cpp lines
259-273).  path is args[0], includePaths is args[1], styleArg is args[2],
commentsArg is args[3].  Lines 266-273: owned copy of the path, the
include-paths allocation overwritten with the caller-transient pointer,
image_path = new char[0], raw option ints.  No source_map_file assignment
exists on this path: the field keeps its blank (null) initial value even
when commentsArg requests map mode. -/
def renderFileSyncBuild (path includePaths : String) (styleArg commentsArg : Int) :
    SassFileContext × List BufId :=
  let c1 := { zeroFileContext with input_path := some ⟨.inputPathBuf, path⟩ }
  let c2 := { c1 with options := { c1.options with include_paths := some ⟨.includeBuf, ""⟩ } }
  let c3 := { c2 with options := { c2.options with include_paths := some ⟨.callerInclude, includePaths⟩ } }
  let c4 := { c3 with options := { c3.options with image_path := some ⟨.imageBuf, ""⟩ } }
  let c5 := { c4 with options := { c4.options with output_style := toInt32 styleArg } }
  let c6 := { c5 with options := { c5.options with source_comments := toInt32 commentsArg } }
  (c6, [.inputPathBuf, .includeBuf, .imageBuf])

/-- MakeCallback (binding.cpp lines 77-105), the completion handler of the
modern inline-source path.  Lines 83-90: when error_status is 0 the
success callback is invoked with the single argument output_string.
Lines 91-99: otherwise the error callback is invoked with the single
argument error_message.  Lines 100-102: if the invoked callback raised,
the exception is escalated through node::FatalException; this does not
skip the following statements.  Line 103: delete ctx->source_string frees
whatever buffer that field points to.  Line 104: the wrapper is handed to
sass_free_context_wrapper (declared in sass_context_wrapper.h, not under
src/; it destroys the wrapper, the context struct and the callback
handles — it cannot reach any char buffer the context no longer
references). -/
def makeCallback (ctx : SassContext) (out : CompileOutcome)
    (callbackRaises : Bool) : DispatchOutcome :=
  { calls :=
      if out.error_status = 0 then
        [.successCall [.str out.output_string]]
      else
        [.errorCall [.str out.error_message]]
    fatalEscalated := callbackRaises
    freed := (ctx.source_string.map Ptr.buf).toList
    wrapperFreed := true }

/-- MakeOldCallback (binding.cpp lines 18-47), the completion handler of
the legacy path.  Lines 24-32: when error_status is 0 the single callback
is invoked with two arguments, Null and output_string.  Lines 33-41:
otherwise the same callback is invoked with the single argument
error_message (argc = 1: the result slot is absent).  Lines 42-44:
callback exceptions are escalated through node::FatalException.  Lines
45-46: delete ctx->source_string, then sass_free_context_wrapper. -/
def makeOldCallback (ctx : SassContext) (out : CompileOutcome)
    (callbackRaises : Bool) : DispatchOutcome :=
  { calls :=
      if out.error_status = 0 then
        [.legacyCall [.null, .str out.output_string]]
      else
        [.legacyCall [.str out.error_message]]
    fatalEscalated := callbackRaises
    freed := (ctx.source_string.map Ptr.buf).toList
    wrapperFreed := true }

/-- MakeFileCallback (binding.cpp lines 186-222), the completion handler
of the modern file path.  Lines 192-207: when error_status is 0 the
success callback is invoked with two arguments: output_string, and —
when the context's source_comments equals SASS_SOURCE_COMMENTS_MAP —
source_map_string, otherwise Null.  Lines 208-216: on error the error
callback is invoked with the single argument error_message.  Lines
217-219: callback exceptions are escalated through node::FatalException.
Line 220: delete ctx->input_path.  Line 221: sass_free_file_context_wrapper. -/
def makeFileCallback (ctx : SassFileContext) (out : FileCompileOutcome)
    (callbackRaises : Bool) : DispatchOutcome :=
  { calls :=
      if out.error_status = 0 then
        let source_map : JSValue :=
          if ctx.options.source_comments = SASS_SOURCE_COMMENTS_MAP then
            .str out.source_map_string
          else
            .null
        [.successCall [.str out.output_string, source_map]]
      else
        [.errorCall [.str out.error_message]]
    fatalEscalated := callbackRaises
    freed := (ctx.input_path.map Ptr.buf).toList
    wrapperFreed := true }

/-- Complete record of one asynchronous inline-source request through
Render / WorkOnContext / MakeCallback (or OldRender / MakeOldCallback):
the buffers allocated at creation, the context the worker handed to the
completion handler, and what the handler did. -/
structure AsyncRun where
  allocs : List BufId
  ctx : SassContext
  dispatch : DispatchOutcome
  deriving DecidableEq

/-- The full asynchronous modern inline-source pipeline: Render builds the
context (lines 107-135), WorkOnContext runs the engine on it (lines
12-16), MakeCallback dispatches and cleans up (lines 77-105). -/
def renderAsyncRun (source includePaths : String) (styleArg commentsArg : Int)
    (engine : SassContext → CompileOutcome) (callbackRaises : Bool) : AsyncRun :=
  let b := renderBuild source includePaths styleArg commentsArg
  { allocs := b.2
    ctx := b.1
    dispatch := makeCallback b.1 (engine b.1) callbackRaises }

/-- The full asynchronous legacy pipeline: OldRender builds the context
(lines 49-75), WorkOnContext runs the engine, MakeOldCallback dispatches
and cleans up (lines 18-47). -/
def oldRenderAsyncRun (source includePaths : String) (styleArg commentsArg : Int)
    (engine : SassContext → CompileOutcome) (callbackRaises : Bool) : AsyncRun :=
  let b := oldRenderBuild source includePaths styleArg commentsArg
  { allocs := b.2
    ctx := b.1
    dispatch := makeOldCallback b.1 (engine b.1) callbackRaises }

deriving instance DecidableEq for Except

/-- Complete record of one synchronous request: the returned value or
raised error, the buffers allocated at creation, and the buffers the
delete statements freed before returning (in deletion order). -/
structure SyncRun where
  result : Except String String
  allocs : List BufId
  freed : List BufId
  deriving DecidableEq

/-- RenderSync (binding.cpp lines 137-174).  After building the context
and running the engine inline (line 153), lines 155-161 delete, in order,
whatever buffers the source_string, include_paths and image_path fields
point to.  Lines 163-167: when error_status is 0 the output text is
returned; lines 169-173: otherwise NanThrowError raises the error
message (the trailing NanReturnUndefined only feeds v8's pending
exception machinery, so the call site observes a raise, not a value). -/
def renderSyncRun (source includePaths : String) (styleArg commentsArg : Int)
    (engine : SassContext → CompileOutcome) : SyncRun :=
  let b := renderSyncBuild source includePaths styleArg commentsArg
  let out := engine b.1
  { result :=
      if out.error_status = 0 then .ok out.output_string
      else .error out.error_message
    allocs := b.2
    freed :=
      (b.1.source_string.map Ptr.buf).toList ++
      (b.1.options.include_paths.map Ptr.buf).toList ++
      (b.1.options.image_path.map Ptr.buf).toList }

/-- RenderFileSync (binding.cpp lines 259-296).  After building the
context and running the engine inline (line 275), lines 277-283 delete,
in order, whatever buffers the input_path, include_paths and image_path
fields point to.  Lines 285-290: on error_status 0 the output text is
returned; lines 291-295: otherwise the error message is raised.  The
result is built from output_string / error_message only; source_map_string
is never read on this path. -/
def renderFileSyncRun (path includePaths : String) (styleArg commentsArg : Int)
    (engine : SassFileContext → FileCompileOutcome) : SyncRun :=
  let b := renderFileSyncBuild path includePaths styleArg commentsArg
  let out := engine b.1
  { result :=
      if out.error_status = 0 then .ok out.output_string
      else .error out.error_message
    allocs := b.2
    freed :=
      (b.1.input_path.map Ptr.buf).toList ++
      (b.1.options.include_paths.map Ptr.buf).toList ++
      (b.1.options.image_path.map Ptr.buf).toList }

/-- What an entry point does with the status returned by uv_queue_work. -/
inductive SubmitHandling
  | proceed
  | assertFailure
  deriving DecidableEq

/-- Render's response to the uv_queue_work status (binding.cpp lines
131-134): assert(status == 0) — satisfied when the status is 0, an
assertion failure otherwise — followed by NanReturnUndefined.  The second
component lists the callback invocations performed on this path: the
source contains none, on either branch. -/
def renderSubmitHandling (status : Int) : SubmitHandling × List CallEvent :=
  (if status = 0 then .proceed else .assertFailure, [])

/-- OldRender's response to the uv_queue_work status (binding.cpp lines
71-74): identical to Render's — assert(status == 0) and no callback
invocation on either branch. -/
def oldRenderSubmitHandling (status : Int) : SubmitHandling × List CallEvent :=
  (if status = 0 then .proceed else .assertFailure, [])

/-- A constant compile engine, used to instantiate the engine parameter
in concrete evaluations. -/
def constEngine (out : CompileOutcome) : SassContext → CompileOutcome :=
  fun _ => out

/-- A constant file compile engine, used to instantiate the engine
parameter in concrete evaluations. -/
def constFileEngine (out : FileCompileOutcome) : SassFileContext → FileCompileOutcome :=
  fun _ => out

/-- The source-comments field a RenderFile-built context carries is the
32-bit truncation of the raw commentsArg, whichever branch line 244
took. -/
theorem renderFileBuild_source_comments (p i m : String) (st c : Int) :
    (renderFileBuild p i st c m).1.options.source_comments = toInt32 c := by
  simp only [renderFileBuild]
  split <;> rfl

/-- C1: For every asynchronous completion handler run (MakeCallback,
MakeFileCallback, MakeOldCallback), exactly one callback invocation
occurs; under the modern convention the success callback is invoked
exactly when the compile error status is 0 and the error callback exactly
otherwise — never both, never neither. -/
theorem c1_exactly_one_callback_invocation
    (ctx : SassContext) (fctx : SassFileContext)
    (out : CompileOutcome) (fout : FileCompileOutcome) (r1 r2 r3 : Bool) :
    (makeCallback ctx out r1).calls.length = 1 ∧
    ((makeCallback ctx out r1).calls = [.successCall [.str out.output_string]] ↔
      out.error_status = 0) ∧
    ((makeCallback ctx out r1).calls = [.errorCall [.str out.error_message]] ↔
      ¬ out.error_status = 0) ∧
    (makeFileCallback fctx fout r2).calls.length = 1 ∧
    ((∃ a, (makeFileCallback fctx fout r2).calls = [.successCall a]) ↔
      fout.error_status = 0) ∧
    ((makeFileCallback fctx fout r2).calls = [.errorCall [.str fout.error_message]] ↔
      ¬ fout.error_status = 0) ∧
    (makeOldCallback ctx out r3).calls.length = 1 := by
  unfold makeCallback makeFileCallback makeOldCallback
  by_cases h : out.error_status = 0 <;>
    by_cases h2 : fout.error_status = 0 <;>
      by_cases hm : fctx.options.source_comments = SASS_SOURCE_COMMENTS_MAP <;>
        simp [h, h2, hm]

/-- C4: Under the legacy convention the single callback is invoked, on
success, with Null as first argument and the output text as second
argument; on failure it is invoked with the error message as first and
only argument — the result slot is absent. -/
theorem c4_legacy_callback_shape (ctx : SassContext) (out : CompileOutcome) (r : Bool) :
    (out.error_status = 0 →
      (makeOldCallback ctx out r).calls = [.legacyCall [.null, .str out.output_string]]) ∧
    (¬ out.error_status = 0 →
      (makeOldCallback ctx out r).calls = [.legacyCall [.str out.error_message]]) := by
  unfold makeOldCallback
  by_cases h : out.error_status = 0 <;> simp [h]

/-- C4 witness: the legacy shapes at a concrete success outcome and a
concrete failure outcome. -/
theorem c4_legacy_callback_shape_witness :
    (makeOldCallback (oldRenderBuild "body" "" 0 0).1 ⟨0, "ok output", ""⟩ false).calls
      = [.legacyCall [.null, .str "ok output"]] ∧
    (makeOldCallback (oldRenderBuild "body" "" 0 0).1 ⟨1, "", "sheet error"⟩ false).calls
      = [.legacyCall [.str "sheet error"]] :=
  ⟨(c4_legacy_callback_shape (oldRenderBuild "body" "" 0 0).1 ⟨0, "ok output", ""⟩ false).1 rfl,
   (c4_legacy_callback_shape (oldRenderBuild "body" "" 0 0).1 ⟨1, "", "sheet error"⟩ false).2
     (by decide)⟩

/-- C5: evaluation showing the claim fails on the code — after request
creation, the include_paths field of every entry point's context
references the caller-transient argument buffer (the v8 AsciiValue
internals), not an owned copy: the heap copy allocated for it at lines
120/147/61/238/269 is left unreachable from the context. -/
theorem c5_include_paths_alias_defect :
    (renderBuild "a" "inc" 0 0).1.options.include_paths = some ⟨.callerInclude, "inc"⟩ ∧
    BufId.callerInclude.callerTransient = true ∧
    BufId.includeBuf ∈ (renderBuild "a" "inc" 0 0).2 ∧
    BufId.includeBuf ∉ ctxBufRefs (renderBuild "a" "inc" 0 0).1 ∧
    (renderSyncBuild "a" "inc" 0 0).1.options.include_paths = some ⟨.callerInclude, "inc"⟩ ∧
    (oldRenderBuild "a" "inc" 0 0).1.options.include_paths = some ⟨.callerInclude, "inc"⟩ ∧
    (renderFileBuild "f.scss" "inc" 0 0 "m").1.options.include_paths
      = some ⟨.callerInclude, "inc"⟩ ∧
    (renderFileSyncBuild "f.scss" "inc" 0 0).1.options.include_paths
      = some ⟨.callerInclude, "inc"⟩ := by
  decide

/-- C8: evaluation showing the claim fails on the code — when
uv_queue_work returns a non-zero status, the only response of Render and
OldRender is the failing assert(status == 0); no error-channel callback
is invoked on that path. -/
theorem c8_submit_failure_not_surfaced :
    renderSubmitHandling (-1) = (.assertFailure, []) ∧
    oldRenderSubmitHandling (-1) = (.assertFailure, []) := by
  decide

/-- C2: evaluation showing the claim fails on the code — across a full
asynchronous request three heap buffers are allocated at creation, but
the completion handler's delete frees only the source buffer; the
include-paths copy is already unreachable from the context when the
handler runs (its pointer was overwritten at creation), so no later free
can reach it: the request leaks it.  The parts of the claim that do hold
are also evaluated: when the callback raises, the error is escalated
(fatalEscalated) and the delete still executes. -/
theorem c2_async_release_defect :
    (renderAsyncRun "a" "inc" 0 0 (constEngine ⟨0, "out", ""⟩) false).allocs
      = [.sourceBuf, .includeBuf, .imageBuf] ∧
    (renderAsyncRun "a" "inc" 0 0 (constEngine ⟨0, "out", ""⟩) false).dispatch.freed
      = [.sourceBuf] ∧
    BufId.includeBuf ∉
      ctxBufRefs (renderAsyncRun "a" "inc" 0 0 (constEngine ⟨0, "out", ""⟩) false).ctx ∧
    (renderAsyncRun "a" "inc" 0 0 (constEngine ⟨0, "out", ""⟩) true).dispatch.freed
      = [.sourceBuf] ∧
    (renderAsyncRun "a" "inc" 0 0 (constEngine ⟨0, "out", ""⟩) true).dispatch.fatalEscalated
      = true ∧
    (oldRenderAsyncRun "a" "inc" 0 0 (constEngine ⟨1, "", "err"⟩) false).dispatch.freed
      = [.sourceBuf] := by
  decide

/-- C3: evaluation showing the claim fails on the code — the synchronous
variants do return exactly one of a value or an error, but the release
step does not free all owned buffers: the include-paths copy allocated at
creation is never freed (its pointer was overwritten), and the delete of
the include_paths field instead frees the caller-transient argument
buffer, which the request does not own. -/
theorem c3_sync_release_defect :
    (renderSyncRun "a" "inc" 0 0 (constEngine ⟨0, "out", ""⟩)).result = .ok "out" ∧
    (renderSyncRun "a" "inc" 0 0 (constEngine ⟨1, "", "boom"⟩)).result = .error "boom" ∧
    (renderSyncRun "a" "inc" 0 0 (constEngine ⟨0, "out", ""⟩)).allocs
      = [.sourceBuf, .includeBuf, .imageBuf] ∧
    (renderSyncRun "a" "inc" 0 0 (constEngine ⟨0, "out", ""⟩)).freed
      = [.sourceBuf, .callerInclude, .imageBuf] ∧
    BufId.includeBuf ∉ (renderSyncRun "a" "inc" 0 0 (constEngine ⟨0, "out", ""⟩)).freed ∧
    BufId.callerInclude.callerTransient = true ∧
    (renderFileSyncRun "f.scss" "inc" 0 0 (constFileEngine ⟨0, "out", "", ""⟩)).freed
      = [.inputPathBuf, .callerInclude, .imageBuf] ∧
    BufId.includeBuf ∉
      (renderFileSyncRun "f.scss" "inc" 0 0 (constFileEngine ⟨0, "out", "", ""⟩)).freed := by
  decide

/-- C6: For renderFile, when sourceCommentMode is Map the success
callback's second argument is the engine's source-map text (non-empty
whenever the engine produced a non-empty map, as it does for a valid
sourceMapPath); for any other mode the second argument carries no
source-map text (Null); and renderFileSync never produces a source map:
its built context leaves source_map_file unset even in Map mode, its
result is assembled from the output or error text only, and it is
unchanged under any modification of the engine's source-map text. -/
theorem c6_source_map_wiring (p i m : String) (st c : Int)
    (e : SassFileContext → FileCompileOutcome) (r : Bool)
    (hok : (e (renderFileBuild p i st c m).1).error_status = 0)
    (hmap : ¬ (e (renderFileBuild p i st c m).1).source_map_string = "") :
    (toInt32 c = SASS_SOURCE_COMMENTS_MAP →
      (makeFileCallback (renderFileBuild p i st c m).1
          (e (renderFileBuild p i st c m).1) r).calls
        = [.successCall [.str (e (renderFileBuild p i st c m).1).output_string,
                         .str (e (renderFileBuild p i st c m).1).source_map_string]] ∧
      ¬ (e (renderFileBuild p i st c m).1).source_map_string = "") ∧
    (¬ toInt32 c = SASS_SOURCE_COMMENTS_MAP →
      (makeFileCallback (renderFileBuild p i st c m).1
          (e (renderFileBuild p i st c m).1) r).calls
        = [.successCall [.str (e (renderFileBuild p i st c m).1).output_string, .null]]) ∧
    (renderFileSyncBuild p i st c).1.source_map_file = none ∧
    (renderFileSyncRun p i st c e).result =
      (if (e (renderFileSyncBuild p i st c).1).error_status = 0 then
        .ok (e (renderFileSyncBuild p i st c).1).output_string
       else
        .error (e (renderFileSyncBuild p i st c).1).error_message) ∧
    (∀ e2 : SassFileContext → FileCompileOutcome,
      (∀ x, (e2 x).error_status = (e x).error_status ∧
            (e2 x).output_string = (e x).output_string ∧
            (e2 x).error_message = (e x).error_message) →
      renderFileSyncRun p i st c e2 = renderFileSyncRun p i st c e) := by
  refine ⟨?_, ?_, rfl, rfl, ?_⟩
  · intro hc
    have hsc : (renderFileBuild p i st c m).1.options.source_comments
        = SASS_SOURCE_COMMENTS_MAP := by
      rw [renderFileBuild_source_comments]
      exact hc
    exact ⟨by simp [makeFileCallback, hok, hsc], hmap⟩
  · intro hc
    have hsc : ¬ (renderFileBuild p i st c m).1.options.source_comments
        = SASS_SOURCE_COMMENTS_MAP := by
      rw [renderFileBuild_source_comments]
      exact hc
    simp [makeFileCallback, hok, hsc]
  · intro e2 h
    have hh := h (renderFileSyncBuild p i st c).1
    simp only [renderFileSyncRun, hh.1, hh.2.1, hh.2.2]

/-- C6 witness: a Map-mode renderFile completion at a concrete request
and a concrete engine outcome passes the non-empty map text as the second
success argument. -/
theorem c6_source_map_wiring_witness :
    (makeFileCallback (renderFileBuild "in.scss" "" 0 2 "out.map").1
        (constFileEngine ⟨0, "body ok", "", "MAPTEXT"⟩
          (renderFileBuild "in.scss" "" 0 2 "out.map").1) false).calls
      = [.successCall [.str "body ok", .str "MAPTEXT"]] := by
  have h := c6_source_map_wiring "in.scss" "" "out.map" 0 2
    (constFileEngine ⟨0, "body ok", "", "MAPTEXT"⟩) false (by decide) (by decide)
  exact (h.1 (by decide)).1

/-- C7: counterexample — with sourceCommentMode = Map (2) the
asynchronous and synchronous file variants do not build equivalent
compile requests at the same input and options: renderFile stores a
source-map path, renderFileSync leaves the field null. -/
theorem c7_file_map_mode_counterexample :
    ¬ (renderFileBuild "in.scss" "" 0 2 "out.map").1
      = (renderFileSyncBuild "in.scss" "" 0 2).1 := by
  decide

/-- C7 (amended): the async and sync inline-source variants build
identical compile requests for every input and option setting, and the
file variants do so whenever sourceCommentMode is not Map; equal built
requests yield identical output text under any engine.  (In Map mode only
the async file variant carries the source-map path, so the file requests
differ.) -/
theorem c7_async_sync_request_equivalence (s i p m : String) (st c : Int)
    (e : SassContext → CompileOutcome) (ef : SassFileContext → FileCompileOutcome) :
    (renderBuild s i st c).1 = (renderSyncBuild s i st c).1 ∧
    (e (renderBuild s i st c).1).output_string
      = (e (renderSyncBuild s i st c).1).output_string ∧
    (¬ toInt32 c = SASS_SOURCE_COMMENTS_MAP →
      (renderFileBuild p i st c m).1 = (renderFileSyncBuild p i st c).1 ∧
      (ef (renderFileBuild p i st c m).1).output_string
        = (ef (renderFileSyncBuild p i st c).1).output_string) := by
  refine ⟨rfl, rfl, ?_⟩
  intro hc
  have hb : (renderFileBuild p i st c m).1 = (renderFileSyncBuild p i st c).1 := by
    simp [renderFileBuild, renderFileSyncBuild, hc]
  exact ⟨hb, by rw [hb]⟩

/-- C7 witness: the amended equivalence applied at a concrete non-Map
request. -/
theorem c7_async_sync_request_equivalence_witness :
    (renderFileBuild "in.scss" "x" 0 0 "out.map").1
      = (renderFileSyncBuild "in.scss" "x" 0 0).1 :=
  ((c7_async_sync_request_equivalence "s" "x" "in.scss" "out.map" 0 0
      (constEngine ⟨0, "o", ""⟩) (constFileEngine ⟨0, "o", "", ""⟩)).2.2
    (by decide)).1

/-- C9: counterexample — an out-of-range outputStyle (99) and
sourceCommentMode (7) are not validated, rejected, or clamped at the API
boundary: Render stores the raw values in the context and queues the work
normally. -/
theorem c9_out_of_range_not_validated :
    (renderBuild "a" "" 99 7).1.options.output_style = 99 ∧
    (renderBuild "a" "" 99 7).1.options.output_style ∉ ([0, 1, 2, 3] : List Int) ∧
    (renderBuild "a" "" 99 7).1.options.source_comments = 7 ∧
    (renderBuild "a" "" 99 7).1.options.source_comments ∉ ([0, 1, 2] : List Int) ∧
    renderSubmitHandling 0 = (.proceed, []) := by
  decide

/-- C9 (amended): no entry point crashes on any integer option value —
each stores the raw 32-bit truncation of outputStyle and
sourceCommentMode in the context, without validation, rejection, or
clamping; downstream behavior for out-of-range values is delegated to
the engine. -/
theorem c9_raw_int32_passthrough (s i p m : String) (st c : Int) :
    (renderBuild s i st c).1.options.output_style = toInt32 st ∧
    (renderBuild s i st c).1.options.source_comments = toInt32 c ∧
    (renderSyncBuild s i st c).1.options.output_style = toInt32 st ∧
    (renderSyncBuild s i st c).1.options.source_comments = toInt32 c ∧
    (oldRenderBuild s i st c).1.options.output_style = toInt32 st ∧
    (oldRenderBuild s i st c).1.options.source_comments = toInt32 c ∧
    (renderFileBuild p i st c m).1.options.output_style = toInt32 st ∧
    (renderFileBuild p i st c m).1.options.source_comments = toInt32 c ∧
    (renderFileSyncBuild p i st c).1.options.output_style = toInt32 st ∧
    (renderFileSyncBuild p i st c).1.options.source_comments = toInt32 c := by
  refine ⟨rfl, rfl, rfl, rfl, rfl, rfl, ?_, ?_, rfl, rfl⟩ <;>
    · simp only [renderFileBuild]
      split <;> rfl

/-- C10: when sourceCommentMode is not Map, the sourceMapPath argument
has no influence on the observable outcome of renderFile: two invocations
differing only in that argument build identical contexts and allocation
lists, and their completion handlers perform identical callback
invocations and cleanup under any engine. -/
theorem c10_map_path_noninterference (p i m1 m2 : String) (st c : Int)
    (e : SassFileContext → FileCompileOutcome) (r : Bool)
    (h : ¬ toInt32 c = SASS_SOURCE_COMMENTS_MAP) :
    renderFileBuild p i st c m1 = renderFileBuild p i st c m2 ∧
    makeFileCallback (renderFileBuild p i st c m1).1
        (e (renderFileBuild p i st c m1).1) r
      = makeFileCallback (renderFileBuild p i st c m2).1
          (e (renderFileBuild p i st c m2).1) r := by
  have hb : renderFileBuild p i st c m1 = renderFileBuild p i st c m2 := by
    simp [renderFileBuild, h, if_neg]
  exact ⟨hb, by rw [hb]⟩

/-- C10 witness: the noninterference applied at a concrete non-Map
request with two distinct source-map paths. -/
theorem c10_map_path_noninterference_witness :
    renderFileBuild "in.scss" "" 0 0 "mapA" = renderFileBuild "in.scss" "" 0 0 "mapB" :=
  (c10_map_path_noninterference "in.scss" "" "mapA" "mapB" 0 0
    (constFileEngine ⟨0, "o", "", ""⟩) false (by decide)).1

end NodeSass
